import Mathlib

/-!
Verification of the resume-analysis service (FastAPI + Gemini) against its
specification.  The Python sources are shallowly embedded: pure helpers become
Lean functions, the on-disk JSON store becomes an association list threaded
through the operations, external LLM/search calls become oracle parameters,
and every call made to an oracle is recorded so that claims about "number of
external calls" and "payload sent to the external service" can be stated.
-/

set_option autoImplicit false

namespace ResumeService

/-! ## Python string helpers

`str.strip()` removes the characters Python classifies as whitespace from both
ends; `_hash_job_description` in `src/storage/resume_store.py` feeds the
stripped text (UTF-8 encoded) to `hashlib.sha256` and keeps the first 32 hex
characters of the digest. -/

/-- Character set stripped by Python's `str.strip()` (Unicode whitespace). -/
def pyIsSpace (c : Char) : Bool :=
  [0x20, 0x9, 0xa, 0xb, 0xc, 0xd, 0x1c, 0x1d, 0x1e, 0x1f, 0x85, 0xa0, 0x1680,
   0x2000, 0x2001, 0x2002, 0x2003, 0x2004, 0x2005, 0x2006, 0x2007, 0x2008,
   0x2009, 0x200a, 0x2028, 0x2029, 0x202f, 0x205f, 0x3000].contains c.toNat

/-- Python `str.strip()`: drop leading and trailing whitespace characters. -/
def pyStrip (s : String) : String :=
  String.mk (((s.data.dropWhile pyIsSpace).reverse.dropWhile pyIsSpace).reverse)

/-- UTF-8 encoding of a single Unicode code point (Python `str.encode("utf-8")`). -/
def utf8EncodeChar (c : Nat) : List Nat :=
  if c < 128 then [c]
  else if c < 2048 then [0xc0 + c / 64, 0x80 + c % 64]
  else if c < 65536 then [0xe0 + c / 4096, 0x80 + (c / 64) % 64, 0x80 + c % 64]
  else [0xf0 + c / 262144, 0x80 + (c / 4096) % 64, 0x80 + (c / 64) % 64, 0x80 + c % 64]

/-- UTF-8 byte sequence of a string. -/
def utf8Bytes (s : String) : List Nat :=
  (s.data.map (fun c => utf8EncodeChar c.toNat)).join

namespace SHA256

/-- Modulus for 32-bit words. -/
def M32 : Nat := 4294967296

/-- Right rotation of a 32-bit word. -/
def rotr (n x : Nat) : Nat := ((x >>> n) ||| (x <<< (32 - n))) % M32

/-- Bitwise complement within 32 bits. -/
def not32 (x : Nat) : Nat := x ^^^ 0xffffffff

def ch (x y z : Nat) : Nat := (x &&& y) ^^^ (not32 x &&& z)

def maj (x y z : Nat) : Nat := (x &&& y) ^^^ (x &&& z) ^^^ (y &&& z)

def bigSigma0 (x : Nat) : Nat := rotr 2 x ^^^ rotr 13 x ^^^ rotr 22 x

def bigSigma1 (x : Nat) : Nat := rotr 6 x ^^^ rotr 11 x ^^^ rotr 25 x

def smallSigma0 (x : Nat) : Nat := rotr 7 x ^^^ rotr 18 x ^^^ (x >>> 3)

def smallSigma1 (x : Nat) : Nat := rotr 17 x ^^^ rotr 19 x ^^^ (x >>> 10)

/-- The 64 SHA-256 round constants. -/
def K : List Nat :=
  [1116352408, 1899447441, 3049323471, 3921009573,
   961987163, 1508970993, 2453635748, 2870763221,
   3624381080, 310598401, 607225278, 1426881987,
   1925078388, 2162078206, 2614888103, 3248222580,
   3835390401, 4022224774, 264347078, 604807628,
   770255983, 1249150122, 1555081692, 1996064986,
   2554220882, 2821834349, 2952996808, 3210313671,
   3336571891, 3584528711, 113926993, 338241895,
   666307205, 773529912, 1294757372, 1396182291,
   1695183700, 1986661051, 2177026350, 2456956037,
   2730485921, 2820302411, 3259730800, 3345764771,
   3516065817, 3600352804, 4094571909, 275423344,
   430227734, 506948616, 659060556, 883997877,
   958139571, 1322822218, 1537002063, 1747873779,
   1955562222, 2024104815, 2227730452, 2361852424,
   2428436474, 2756734187, 3204031479, 3329325298]

/-- The eight working registers of the compression function. -/
structure Regs where
  a : Nat
  b : Nat
  c : Nat
  d : Nat
  e : Nat
  f : Nat
  g : Nat
  h : Nat

/-- Initial hash value. -/
def initRegs : Regs :=
  ⟨1779033703, 3144134277, 1013904242, 2773480762,
   1359893119, 2600822924, 528734635, 1541459225⟩

/-- Message schedule: expand 16 words to 64 words. -/
def schedule (block : List Nat) : List Nat :=
  ((List.range 48).foldl
    (fun w i =>
      let t := (smallSigma1 (w.getD (i + 14) 0) + w.getD (i + 9) 0 +
                smallSigma0 (w.getD (i + 1) 0) + w.getD i 0) % M32
      w.push t)
    block.toArray).toList

/-- One round of the compression function. -/
def compressStep (r : Regs) (wk : Nat × Nat) : Regs :=
  let t1 := (r.h + bigSigma1 r.e + ch r.e r.f r.g + wk.2 + wk.1) % M32
  let t2 := (bigSigma0 r.a + maj r.a r.b r.c) % M32
  ⟨(t1 + t2) % M32, r.a, r.b, r.c, (r.d + t1) % M32, r.e, r.f, r.g⟩

/-- Process one 512-bit block. -/
def compressBlock (h0 : Regs) (block : List Nat) : Regs :=
  let w := schedule block
  let r := ((w.zip K).foldl compressStep h0)
  ⟨(h0.a + r.a) % M32, (h0.b + r.b) % M32, (h0.c + r.c) % M32,
   (h0.d + r.d) % M32, (h0.e + r.e) % M32, (h0.f + r.f) % M32,
   (h0.g + r.g) % M32, (h0.h + r.h) % M32⟩

/-- Big-endian 8-byte encoding of the bit length. -/
def lengthBytes (n : Nat) : List Nat :=
  [(n >>> 56) % 256, (n >>> 48) % 256, (n >>> 40) % 256, (n >>> 32) % 256,
   (n >>> 24) % 256, (n >>> 16) % 256, (n >>> 8) % 256, n % 256]

/-- SHA-256 padding: append `0x80`, zeros, and the 64-bit message bit length. -/
def padMessage (msg : List Nat) : List Nat :=
  let L := msg.length
  let k := (119 - L % 64) % 64
  msg ++ [0x80] ++ List.replicate k 0 ++ lengthBytes (8 * L)

/-- Group bytes into big-endian 32-bit words. -/
def bytesToWords : List Nat → List Nat
  | b0 :: b1 :: b2 :: b3 :: rest =>
      (((b0 * 256 + b1) * 256 + b2) * 256 + b3) :: bytesToWords rest
  | _ => []

/-- Split the padded message into 64-byte blocks. -/
def chunkify (l : List Nat) : List (List Nat) :=
  if h : l = [] then []
  else l.take 64 :: chunkify (l.drop 64)
termination_by l.length
decreasing_by
  simp only [List.length_drop]
  exact Nat.sub_lt (List.length_pos.mpr h) (by decide)

/-- SHA-256 digest of a byte sequence, as eight 32-bit words. -/
def sha256Words (msg : List Nat) : Regs :=
  ((chunkify (padMessage msg)).map bytesToWords).foldl compressBlock initRegs

def hexDigit (n : Nat) : Char := "0123456789abcdef".data.getD n '0'

/-- Lowercase hexadecimal rendering of a 32-bit word. -/
def toHex8 (w : Nat) : String :=
  String.mk ((List.range 8).map (fun i => hexDigit ((w >>> ((7 - i) * 4)) % 16)))

/-- Hexadecimal SHA-256 digest of a byte sequence (`hashlib.sha256(...).hexdigest()`). -/
def sha256hex (msg : List Nat) : String :=
  let r := sha256Words msg
  toHex8 r.a ++ toHex8 r.b ++ toHex8 r.c ++ toHex8 r.d ++
  toHex8 r.e ++ toHex8 r.f ++ toHex8 r.g ++ toHex8 r.h

end SHA256

/-- Embeds `_hash_job_description` (src/storage/resume_store.py, lines 43-45):
`hashlib.sha256(job_description.strip().encode("utf-8")).hexdigest()[:32]`.
It is a pure function of the job-description text alone; the resume content
never enters the computation. -/
def hash_job_description (job_description : String) : String :=
  (SHA256.sha256hex (utf8Bytes (pyStrip job_description))).take 32

/-! ## JSON values and association-list dictionaries

The store keeps one JSON document per resume id.  JSON objects are embedded as
association lists (Python dicts preserve insertion order; keys are unique).
Numbers are embedded as rationals: the claims only exercise integral values
and order comparisons. -/

inductive Json where
  | null
  | bool (b : Bool)
  | num (q : ℚ)
  | str (s : String)
  | arr (elems : List Json)
  | obj (entries : List (String × Json))

namespace Json

/-- Dictionary lookup (first entry with the key; keys are unique in JSON). -/
def objGet : Json → String → Option Json
  | obj kvs, k => kvs.lookup k
  | _, _ => none

/-- Python `d.get(k, default)`: the stored value (even if `None`) when the key
is present, otherwise the default. -/
def pyGet (j : Json) (k : String) (d : Json) : Json :=
  (j.objGet k).getD d

/-- Python `k in d`. -/
def hasKey (j : Json) (k : String) : Bool :=
  (j.objGet k).isSome

/-- Python truthiness (`if x:`): `None`, `False`, `0`, `""`, `[]`, `{}` are falsy. -/
def pyTruthy : Json → Bool
  | null => false
  | bool b => b
  | num q => q != 0
  | str s => s != ""
  | arr xs => !xs.isEmpty
  | obj kvs => !kvs.isEmpty

/-- Elements of a JSON array (`[]` for non-arrays; the Python code only
applies list operations to values that are lists). -/
def arrList : Json → List Json
  | arr xs => xs
  | _ => []

end Json

/-- Python dict assignment `d[k] = v`: update in place when the key exists
(insertion order preserved), otherwise append at the end. -/
def assocSet {α : Type} : List (String × α) → String → α → List (String × α)
  | [], k, v => [(k, v)]
  | (k', v') :: rest, k, v =>
      if k' = k then (k', v) :: rest else (k', v') :: assocSet rest k v

namespace Json

/-- Dictionary update `d[k] = v` on a JSON object (identity on non-objects;
the Python code only mutates values that are dicts). -/
def objSet : Json → String → Json → Json
  | obj kvs, k, v => obj (assocSet kvs k v)
  | j, _, _ => j

/-- Embeds the dict comprehension `{k: v for k, v in d.items() if k != key}`. -/
def stripKey : Json → String → Json
  | obj kvs, k => obj (kvs.filter (fun kv => kv.1 ≠ k))
  | j, _ => j

end Json

/-! ## Artifact store (src/storage/resume_store.py)

The parsed-resume directory is embedded as an association list from resume id
(the file name) to the JSON document stored in that file.  `uuid.uuid4()` is
an external randomness source and is passed in as the `fresh_id` argument. -/

/-- One JSON file per resume id. -/
abbrev Store := List (String × Json)

/-- Error taxonomy used by the embedded operations. -/
inductive Err where
  | fileNotFound (msg : String)
  | runtimeError (msg : String)
  | validationError (msg : String)

/-- Embeds `save_parsed_resume` (resume_store.py, lines 21-30).  The source
generates `resume_id = str(uuid.uuid4())` (here: `fresh_id`), then opens
`PARSED_DIR / f"{resume_id}.json"` in `"w"` mode and dumps the JSON.  There is
no existence check and `"w"` truncates/overwrites, so the function is total:
it never fails on identifier collision. -/
def save_parsed_resume (fresh_id : String) (store : Store) (resume : Json) :
    String × Store :=
  (fresh_id, assocSet store fresh_id resume)

/-- Embeds `load_parsed_resume` (resume_store.py, lines 33-40). -/
def load_parsed_resume (store : Store) (resume_id : String) : Except Err Json :=
  match store.lookup resume_id with
  | none => .error (.fileNotFound s!"No stored resume with id {resume_id}")
  | some data => .ok data

/-- Embeds `get_cached_ats_score` (resume_store.py, lines 47-73): look up the
record file, read `data.get("ats_scores", {})`, and return the entry keyed by
the job-description hash. -/
def get_cached_ats_score (store : Store) (resume_id job_description : String) :
    Option Json :=
  match store.lookup resume_id with
  | none => none
  | some data =>
      let ats_scores := data.pyGet "ats_scores" (.obj [])
      let job_hash := hash_job_description job_description
      ats_scores.objGet job_hash

/-- Preview stored in the cache envelope (resume_store.py, line 110):
`job_description[:200] + "..." if len(job_description) > 200 else job_description`. -/
def jd_preview (job_description : String) : String :=
  if job_description.length > 200 then job_description.take 200 ++ "..."
  else job_description

/-- Cache envelope written by `save_ats_score` (resume_store.py, lines 108-112). -/
def ats_envelope (job_description : String) (ats_score : Json) : Json :=
  .obj [("job_description_hash", .str (hash_job_description job_description)),
        ("job_description_preview", .str (jd_preview job_description)),
        ("score", ats_score)]

/-- Embeds `save_ats_score` (resume_store.py, lines 78-122): raise
`FileNotFoundError` when the record is absent, initialise `ats_scores` when
missing, store the envelope under the job hash, and write the document back
(the temp-file/rename discipline of the write is modelled separately at the
file-system level; at the store level the write is the resulting state). -/
def save_ats_score (store : Store) (resume_id job_description : String)
    (ats_score : Json) : Except Err Store :=
  match store.lookup resume_id with
  | none => .error (.fileNotFound s!"No stored resume with id {resume_id}")
  | some data =>
      let data := if data.hasKey "ats_scores" then data
                  else data.objSet "ats_scores" (.obj [])
      let job_hash := hash_job_description job_description
      let data := data.objSet "ats_scores"
        ((data.pyGet "ats_scores" (.obj [])).objSet job_hash
          (ats_envelope job_description ats_score))
      .ok (assocSet store resume_id data)

/-! ## ATS score schema (src/models/ats_score.py)

The pydantic models become structures; `model_dump(mode="json")` becomes
`toJson` and `model_validate` becomes a JSON parser enforcing the same
constraints (required fields, list/None defaults, `ge=0`/`le=100` bounds). -/

structure SectionScore where
  skills_match : Option Int
  experience_relevance : Option Int
  education_fit : Option Int
  keyword_optimization : Option Int
deriving DecidableEq

structure ATSScore where
  overall_score : Int
  section_scores : SectionScore
  strengths : List String
  gaps : List String
  recommendations : List String
  missing_keywords : List String
  matched_keywords : List String
  summary : Option String
deriving DecidableEq

/-- JSON for an optional bounded-int field. -/
def optIntJson : Option Int → Json
  | none => .null
  | some n => .num n

def strListJson (l : List String) : Json := .arr (l.map .str)

def optStrJson : Option String → Json
  | none => .null
  | some s => .str s

def SectionScore.toJson (s : SectionScore) : Json :=
  .obj [("skills_match", optIntJson s.skills_match),
        ("experience_relevance", optIntJson s.experience_relevance),
        ("education_fit", optIntJson s.education_fit),
        ("keyword_optimization", optIntJson s.keyword_optimization)]

/-- `ATSScore.model_dump(mode="json")`. -/
def ATSScore.toJson (s : ATSScore) : Json :=
  .obj [("overall_score", .num s.overall_score),
        ("section_scores", s.section_scores.toJson),
        ("strengths", strListJson s.strengths),
        ("gaps", strListJson s.gaps),
        ("recommendations", strListJson s.recommendations),
        ("missing_keywords", strListJson s.missing_keywords),
        ("matched_keywords", strListJson s.matched_keywords),
        ("summary", optStrJson s.summary)]

/-- Parse a required int field with pydantic bounds `ge=0, le=100`. -/
def parseScoreInt (j : Json) (k : String) : Except String Int :=
  match j.objGet k with
  | some (.num q) =>
      if q.den = 1 ∧ 0 ≤ q.num ∧ q.num ≤ 100 then .ok q.num
      else .error s!"invalid value for {k}"
  | _ => .error s!"missing or invalid {k}"

/-- Parse an `Optional[int]` field with bounds (default `None`). -/
def parseOptScoreInt (j : Json) (k : String) : Except String (Option Int) :=
  match j.objGet k with
  | none => .ok none
  | some .null => .ok none
  | some (.num q) =>
      if q.den = 1 ∧ 0 ≤ q.num ∧ q.num ≤ 100 then .ok (some q.num)
      else .error s!"invalid value for {k}"
  | some _ => .error s!"invalid value for {k}"

def parseStr : Json → Except String String
  | .str s => .ok s
  | _ => .error "expected string"

/-- Parse a `List[str]` field with `default_factory=list`. -/
def parseStrListD (j : Json) (k : String) : Except String (List String) :=
  match j.objGet k with
  | none => .ok []
  | some (.arr xs) => xs.mapM parseStr
  | some _ => .error s!"invalid value for {k}"

/-- Parse an `Optional[str]` field with default `None`. -/
def parseOptStr (j : Json) (k : String) : Except String (Option String) :=
  match j.objGet k with
  | none => .ok none
  | some .null => .ok none
  | some (.str s) => .ok (some s)
  | some _ => .error s!"invalid value for {k}"

def SectionScore.model_validate (j : Json) : Except String SectionScore := do
  let sm ← parseOptScoreInt j "skills_match"
  let er ← parseOptScoreInt j "experience_relevance"
  let ef ← parseOptScoreInt j "education_fit"
  let ko ← parseOptScoreInt j "keyword_optimization"
  .ok ⟨sm, er, ef, ko⟩

/-- `ATSScore.model_validate` on a JSON value. -/
def ATSScore.model_validate (j : Json) : Except String ATSScore := do
  let overall ← parseScoreInt j "overall_score"
  let secScores ←
    match j.objGet "section_scores" with
    | some sj => SectionScore.model_validate sj
    | none => .error "missing section_scores"
  let strengths ← parseStrListD j "strengths"
  let gaps ← parseStrListD j "gaps"
  let recommendations ← parseStrListD j "recommendations"
  let missing ← parseStrListD j "missing_keywords"
  let matched ← parseStrListD j "matched_keywords"
  let summary ← parseOptStr j "summary"
  .ok ⟨overall, secScores, strengths, gaps, recommendations, missing, matched, summary⟩

/-- Bounds enforced by the schema; every `ATSScore` produced by
`model_validate` (hence everything the Gemini client returns) satisfies them. -/
def SectionScore.Valid (s : SectionScore) : Prop :=
  (∀ n ∈ s.skills_match, 0 ≤ n ∧ n ≤ 100) ∧
  (∀ n ∈ s.experience_relevance, 0 ≤ n ∧ n ≤ 100) ∧
  (∀ n ∈ s.education_fit, 0 ≤ n ∧ n ≤ 100) ∧
  (∀ n ∈ s.keyword_optimization, 0 ≤ n ∧ n ≤ 100)

def ATSScore.Valid (s : ATSScore) : Prop :=
  0 ≤ s.overall_score ∧ s.overall_score ≤ 100 ∧ s.section_scores.Valid

/-! ## Scoring service (src/services/ats_scorer.py)

`GeminiClient.score_resume_ats` is the external scoring call; it is passed in
as an oracle returning an `ATSScore` (the real client validates the provider
response against the schema before returning).  Every oracle invocation is
recorded as a `ScoreCall` carrying exactly the data the source sends: the
cleaned resume record and the job-description text. -/

/-- Arguments of one external scoring call. -/
structure ScoreCall where
  resume_data : Json
  job_description : String

/-- Cache-miss path of `ATSScorer.score` (ats_scorer.py, lines 58-79): load the
record, strip `ats_scores` via the dict comprehension, invoke the external
scorer, cache the result, return it. -/
def score_miss (oracle : Json → String → ATSScore) (store : Store)
    (resume_id job_description : String) :
    Except Err (ATSScore × Store × List ScoreCall) :=
  match load_parsed_resume store resume_id with
  | .error e => .error e
  | .ok resume_data =>
      let resume_data_clean := resume_data.stripKey "ats_scores"
      let ats_score := oracle resume_data_clean job_description
      match save_ats_score store resume_id job_description ats_score.toJson with
      | .error e => .error e
      | .ok store' =>
          .ok (ats_score, store', [⟨resume_data_clean, job_description⟩])

/-- Cache-hit path of `ATSScorer.score` (ats_scorer.py, lines 53-56):
`score_data = cached_score.get("score", cached_score)` is re-validated against
the schema and returned with no external call and no store change. -/
def score_hit (store : Store) (cached_score : Json) :
    Except Err (ATSScore × Store × List ScoreCall) :=
  let score_data := cached_score.pyGet "score" cached_score
  match ATSScore.model_validate score_data with
  | .ok s => .ok (s, store, [])
  | .error e => .error (.validationError e)

/-- Embeds `ATSScorer.score` (ats_scorer.py, lines 27-79). -/
def ATSScorer.score (oracle : Json → String → ATSScore) (store : Store)
    (resume_id job_description : String) (use_cache : Bool) :
    Except Err (ATSScore × Store × List ScoreCall) :=
  match (if use_cache then get_cached_ats_score store resume_id job_description
         else none) with
  | some cached_score =>
      if cached_score.pyTruthy then score_hit store cached_score
      else score_miss oracle store resume_id job_description
  | none => score_miss oracle store resume_id job_description

/-! ## File-system write discipline (claim C3)

The two persistence functions are also modelled at the level of the I/O steps
they perform, to reason about what a concurrent reader (or a crash at any
point) can observe.  A file system is a map from path to current content. -/

abbrev FS := List (String × String)

inductive IOStep where
  | openTrunc (path : String)
  | writeChunk (path : String) (data : String)
  | rename (src dst : String)

/-- Effect of one step.  `openTrunc` models both `open(path, "w")` and
`tempfile.mkstemp` (create-or-truncate to empty); `writeChunk` appends one
chunk of the serialised JSON; `rename` models `os.replace` (atomic). -/
def applyStep (fs : FS) : IOStep → FS
  | .openTrunc p => assocSet fs p ""
  | .writeChunk p d =>
      match fs.lookup p with
      | some c => assocSet fs p (c ++ d)
      | none => fs
  | .rename src dst =>
      match fs.lookup src with
      | some c => assocSet (fs.filter (fun kv => kv.1 ≠ src)) dst c
      | none => fs

def runSteps (fs : FS) (steps : List IOStep) : FS :=
  steps.foldl applyStep fs

/-- I/O trace of `save_parsed_resume` (resume_store.py, lines 27-28): open the
destination itself in `"w"` mode and stream the JSON into it. -/
def save_parsed_resume_trace (dest : String) (chunks : List String) :
    List IOStep :=
  .openTrunc dest :: chunks.map (.writeChunk dest)

/-- I/O trace of the write in `save_ats_score` (resume_store.py, lines
114-119): create a temp file in the same directory, stream the JSON into it,
then `os.replace` it over the destination. -/
def save_ats_score_trace (tmp dest : String) (chunks : List String) :
    List IOStep :=
  .openTrunc tmp :: (chunks.map (IOStep.writeChunk tmp) ++ [.rename tmp dest])

/-- A write is torn-read free when, after every prefix of its steps (i.e. at
every point at which the process could crash or a reader could look), the
destination holds either its original content or the complete new document. -/
def NeverTorn (fs0 : FS) (steps : List IOStep) (dest : String)
    (newContent : String) : Prop :=
  ∀ pre, pre <+: steps →
    (runSteps fs0 pre).lookup dest = fs0.lookup dest ∨
    (runSteps fs0 pre).lookup dest = some newContent

/-! ## Insight payload schemas (src/models/insights.py) -/

structure SalaryRange where
  min_salary : ℚ
  max_salary : ℚ
  currency : String
  period : String
deriving DecidableEq

structure SalaryRecommendation where
  recommended_range : SalaryRange
  market_median : ℚ
  percentile_25 : ℚ
  percentile_75 : ℚ
  key_factors : List String
  market_trends : List String
  sources : List String
  analysis_summary : String
deriving DecidableEq

/-- Parse a required float field (pydantic accepts any JSON number). -/
def parseNum (j : Json) (k : String) : Except String ℚ :=
  match j.objGet k with
  | some (.num q) => .ok q
  | _ => .error s!"missing or invalid {k}"

/-- Parse a `str` field with a default value used when the key is absent. -/
def parseStrD (j : Json) (k dflt : String) : Except String String :=
  match j.objGet k with
  | none => .ok dflt
  | some (.str s) => .ok s
  | some _ => .error s!"invalid value for {k}"

/-- Parse a required `str` field. -/
def parseReqStr (j : Json) (k : String) : Except String String :=
  match j.objGet k with
  | some (.str s) => .ok s
  | _ => .error s!"missing or invalid {k}"

/-- Embeds `SalaryRange` validation (insights.py, lines 8-31): field parsing
with defaults `currency="USD"`, `period="annual"`, then the
`validate_salary_range` model validator rejecting `min_salary > max_salary`. -/
def SalaryRange.model_validate (j : Json) : Except String SalaryRange := do
  let minq ← parseNum j "min_salary"
  let maxq ← parseNum j "max_salary"
  let currency ← parseStrD j "currency" "USD"
  let period ← parseStrD j "period" "annual"
  if minq > maxq then
    .error "min_salary cannot exceed max_salary"
  else
    .ok ⟨minq, maxq, currency, period⟩

/-- Embeds `SalaryRecommendation` validation (insights.py, lines 34-68). -/
def SalaryRecommendation.model_validate (j : Json) :
    Except String SalaryRecommendation := do
  let rng ←
    match j.objGet "recommended_range" with
    | some rj => SalaryRange.model_validate rj
    | none => .error "missing recommended_range"
  let med ← parseNum j "market_median"
  let p25 ← parseNum j "percentile_25"
  let p75 ← parseNum j "percentile_75"
  let kf ← parseStrListD j "key_factors"
  let mt ← parseStrListD j "market_trends"
  let src ← parseStrListD j "sources"
  let asum ← parseReqStr j "analysis_summary"
  .ok ⟨rng, med, p25, p75, kf, mt, src, asum⟩

structure LearningResource where
  title : String
  url : String
  type : String
  skill : String
  difficulty : Option String
  duration : Option String
  description : Option String
deriving DecidableEq

structure ProjectSuggestion where
  title : String
  description : String
  skills_practiced : List String
  difficulty : String
  estimated_duration : String
  key_learnings : List String
deriving DecidableEq

structure LearningPath where
  phase : Int
  title : String
  skills_focus : List String
  resources : List LearningResource
  projects : List ProjectSuggestion
  duration : String
  objectives : List String
deriving DecidableEq

structure UpskillingReport where
  identified_gaps : List String
  target_skills : List String
  all_resources : List LearningResource
  learning_path : List LearningPath
  project_suggestions : List ProjectSuggestion
  estimated_total_duration : String
  career_impact : String
  report_summary : String
deriving DecidableEq

/-- Embeds the `validate_phase` field validator of `LearningPath`
(insights.py, lines 165-174): reject any phase that is not a positive
(1-based) integer.  No other constraint is placed on phase numbers. -/
def LearningPath.validate_phase (v : Int) : Except String Int :=
  if v ≤ 0 then
    .error s!"Phase must be a positive 1-based integer (greater than 0), got {v}. Learning path phases should start at 1 and increment sequentially."
  else
    .ok v

/-- Parse a required int field. -/
def parseInt (j : Json) (k : String) : Except String Int :=
  match j.objGet k with
  | some (.num q) =>
      if q.den = 1 then .ok q.num else .error s!"invalid value for {k}"
  | _ => .error s!"missing or invalid {k}"

/-- Embeds `LearningResource` validation (insights.py, lines 71-101). -/
def LearningResource.model_validate (j : Json) : Except String LearningResource := do
  let title ← parseReqStr j "title"
  let url ← parseReqStr j "url"
  let ty ← parseReqStr j "type"
  let skill ← parseReqStr j "skill"
  let difficulty ← parseOptStr j "difficulty"
  let duration ← parseOptStr j "duration"
  let description ← parseOptStr j "description"
  .ok ⟨title, url, ty, skill, difficulty, duration, description⟩

/-- Embeds `ProjectSuggestion` validation (insights.py, lines 104-130). -/
def ProjectSuggestion.model_validate (j : Json) : Except String ProjectSuggestion := do
  let title ← parseReqStr j "title"
  let description ← parseReqStr j "description"
  let sp ← parseStrListD j "skills_practiced"
  let difficulty ← parseReqStr j "difficulty"
  let ed ← parseReqStr j "estimated_duration"
  let kl ← parseStrListD j "key_learnings"
  .ok ⟨title, description, sp, difficulty, ed, kl⟩

/-- Parse a list-of-models field with `default_factory=list`. -/
def parseModelListD {α : Type} (p : Json → Except String α) (j : Json)
    (k : String) : Except String (List α) :=
  match j.objGet k with
  | none => .ok []
  | some (.arr xs) => xs.mapM p
  | some _ => .error s!"invalid value for {k}"

/-- Embeds `LearningPath` validation (insights.py, lines 133-174): field
parsing plus the `validate_phase` field validator on `phase`. -/
def LearningPath.model_validate (j : Json) : Except String LearningPath := do
  let rawPhase ← parseInt j "phase"
  let phase ← LearningPath.validate_phase rawPhase
  let title ← parseReqStr j "title"
  let sf ← parseStrListD j "skills_focus"
  let res ← parseModelListD LearningResource.model_validate j "resources"
  let projs ← parseModelListD ProjectSuggestion.model_validate j "projects"
  let duration ← parseReqStr j "duration"
  let objectives ← parseStrListD j "objectives"
  .ok ⟨phase, title, sf, res, projs, duration, objectives⟩

/-- Embeds `UpskillingReport` validation (insights.py, lines 177-211).  Note:
there is no model-level validator relating the phases of different
learning-path entries to one another. -/
def UpskillingReport.model_validate (j : Json) : Except String UpskillingReport := do
  let ig ← parseStrListD j "identified_gaps"
  let ts ← parseStrListD j "target_skills"
  let ar ← parseModelListD LearningResource.model_validate j "all_resources"
  let lp ← parseModelListD LearningPath.model_validate j "learning_path"
  let ps ← parseModelListD ProjectSuggestion.model_validate j "project_suggestions"
  let etd ← parseReqStr j "estimated_total_duration"
  let ci ← parseReqStr j "career_impact"
  let rs ← parseReqStr j "report_summary"
  .ok ⟨ig, ts, ar, lp, ps, etd, ci, rs⟩

/-! ## Insights service (src/services/insights_service.py)

The Gemini `generate_content` call is an oracle.  The prompt it receives is a
fixed f-string template over the candidate values computed by the service, so
the oracle argument is embedded as the structure of those values: two calls
send the same request if and only if these values coincide. -/

/-- Python truthiness of an `Optional[str]` request field (`if not x:`). -/
def pyTruthyOptStr : Option String → Bool
  | none => false
  | some s => s != ""

/-- Python truthiness of an `Optional[int]` request field. -/
def pyTruthyOptInt : Option Int → Bool
  | none => false
  | some n => n != 0

/-- Values interpolated into the salary-research prompt
(insights_service.py, lines 68-124). -/
structure SalaryPromptArgs where
  full_name : Json
  skills : List Json
  experience_years : Int
  recent_roles : List Json
  job_title : Json
  location : Json

/-- Location defaulting (insights_service.py, lines 52-55): when the override
is falsy, take `resume_data.get('contact', {})` and, if that is truthy,
`contact.get('location', 'United States')`, else `'United States'`. -/
def locationFromResume (resume_data : Json) : Json :=
  let contact := resume_data.pyGet "contact" (.obj [])
  if contact.pyTruthy then contact.pyGet "location" (.str "United States")
  else .str "United States"

def effLocation (location : Option String) (resume_data : Json) : Json :=
  if pyTruthyOptStr location then .str (location.getD "")
  else locationFromResume resume_data

/-- Job-title defaulting (insights_service.py, lines 57-61). -/
def jobTitleFromExperience (experience : List Json) : Json :=
  if experience.isEmpty then .str "Software Engineer"
  else (experience.headD .null).pyGet "job_title" (.str "Software Engineer")

def effJobTitle (job_title : Option String) (experience : List Json) : Json :=
  if pyTruthyOptStr job_title then .str (job_title.getD "")
  else jobTitleFromExperience experience

/-- Experience-years defaulting (insights_service.py, lines 63-65):
`len(experience) * 2` when the override is falsy. -/
def effExperienceYears (experience_years : Option Int) (experience : List Json) :
    Int :=
  if pyTruthyOptInt experience_years then experience_years.getD 0
  else experience.length * 2

/-- Embeds `InsightsService.get_salary_recommendation` (insights_service.py,
lines 20-146).  Returns the outcome, the resulting store state, and the list
of external research calls made.  The source contains no persistence step, so
the store passes through unchanged on every path. -/
def get_salary_recommendation
    (oracle : SalaryPromptArgs → Except String Json) (store : Store)
    (resume_id : String) (job_title location : Option String)
    (experience_years : Option Int) :
    Except Err SalaryRecommendation × Store × List SalaryPromptArgs :=
  match store.lookup resume_id with
  | none =>
      (.error (.fileNotFound s!"No stored resume with id {resume_id}"), store, [])
  | some resume_data =>
      if !resume_data.pyTruthy then
        (.error (.runtimeError s!"Resume {resume_id} not found"), store, [])
      else
        let skills := (resume_data.pyGet "skills" (.arr [])).arrList.take 10
        let experience := (resume_data.pyGet "experience" (.arr [])).arrList
        let full_name := resume_data.pyGet "full_name" (.str "Candidate")
        let location' := effLocation location resume_data
        let job_title' := effJobTitle job_title experience
        let experience_years' := effExperienceYears experience_years experience
        let args : SalaryPromptArgs :=
          ⟨full_name, skills, experience_years',
           (experience.take 3).map (fun e => e.pyGet "job_title" (.str "")),
           job_title', location'⟩
        match oracle args with
        | .error e =>
            (.error (.runtimeError s!"Failed to generate salary recommendation: {e}"),
             store, [args])
        | .ok resp =>
            match SalaryRecommendation.model_validate resp with
            | .error e =>
                (.error (.runtimeError s!"Failed to generate salary recommendation: {e}"),
                 store, [args])
            | .ok rec => (.ok rec, store, [args])

/-- Comma join used by the prompt construction (`', '.join(...)`). -/
def joinComma (l : List String) : String := String.intercalate ", " l

/-- String list read with `.get(k, [])` and joined in the f-string; non-string
elements never occur in the data the source stores. -/
def jStrListD (j : Json) (k : String) : List String :=
  match j.objGet k with
  | some (.arr xs) =>
      xs.filterMap (fun x => match x with | .str s => some s | _ => none)
  | _ => []

/-- Python `str()` rendering of the JSON values interpolated in the ATS
context (only `N/A` strings and integers occur in practice). -/
def jPyStr : Json → String
  | .str s => s
  | .num q => if q.den = 1 then toString q.num else toString (q.num) ++ "/" ++ toString (q.den)
  | .null => "None"
  | .bool true => "True"
  | .bool false => "False"
  | .arr _ => "[...]"
  | .obj _ => "{...}"

/-- Embeds the ATS-context construction of `get_upskilling_recommendations`
(insights_service.py, lines 184-200).  When the hash is truthy and present in
`resume_data.get('ats_scores', {})`, the entry `ats_data` is read with
`ats_data.get('overall_score', 'N/A')`, `ats_data.get('gaps', [])`,
`ats_data.get('missing_keywords', [])`, `ats_data.get('matched_keywords', [])`
and `ats_data.get('recommendations', [])` — i.e. from the top level of the
cache envelope, not from its nested `"score"` member. -/
def build_ats_context (resume_data : Json) (job_description_hash : Option String) :
    String :=
  if pyTruthyOptStr job_description_hash then
    let h := job_description_hash.getD ""
    let ats_scores := resume_data.pyGet "ats_scores" (.obj [])
    match ats_scores.objGet h with
    | none => ""
    | some ats_data =>
        "\n\nATS Analysis for Target Role:\n- Overall ATS Score: " ++
        jPyStr (ats_data.pyGet "overall_score" (.str "N/A")) ++
        "/100\n- Identified Gaps: " ++
        joinComma (jStrListD ats_data "gaps") ++
        "\n- Missing Keywords: " ++
        joinComma (jStrListD ats_data "missing_keywords") ++
        "\n- Matched Keywords: " ++
        joinComma (jStrListD ats_data "matched_keywords") ++
        "\n- ATS Recommendations: " ++
        joinComma (jStrListD ats_data "recommendations") ++
        "\n\nPlease prioritize addressing the identified gaps and missing keywords in your upskilling recommendations.\n"
  else ""

/-- Values interpolated into the upskilling prompt
(insights_service.py, lines 203-275). -/
structure UpskillPromptArgs where
  full_name : Json
  skills : List Json
  current_role : Json
  target_role : Json
  ats_context : String

/-- Embeds `InsightsService.get_upskilling_recommendations`
(insights_service.py, lines 147-297).  Returns the outcome and the external
generation calls made. -/
def get_upskilling_recommendations
    (oracle : UpskillPromptArgs → Except String Json) (store : Store)
    (resume_id : String) (job_description_hash target_role : Option String) :
    Except Err UpskillingReport × List UpskillPromptArgs :=
  match store.lookup resume_id with
  | none => (.error (.fileNotFound s!"No stored resume with id {resume_id}"), [])
  | some resume_data =>
      if !resume_data.pyTruthy then
        (.error (.runtimeError s!"Resume {resume_id} not found"), [])
      else
        let skills := (resume_data.pyGet "skills" (.arr [])).arrList
        let experience := (resume_data.pyGet "experience" (.arr [])).arrList
        let full_name := resume_data.pyGet "full_name" (.str "Candidate")
        let current_role :=
          if experience.isEmpty then Json.str "Software Engineer"
          else (experience.headD .null).pyGet "job_title" (.str "Software Engineer")
        let target_role' :=
          if pyTruthyOptStr target_role then Json.str (target_role.getD "")
          else current_role
        let ats_context := build_ats_context resume_data job_description_hash
        let args : UpskillPromptArgs :=
          ⟨full_name, skills, current_role, target_role', ats_context⟩
        match oracle args with
        | .error e =>
            (.error (.runtimeError s!"Failed to generate upskilling recommendations: {e}"),
             [args])
        | .ok resp =>
            match UpskillingReport.model_validate resp with
            | .error e =>
                (.error (.runtimeError s!"Failed to generate upskilling recommendations: {e}"),
                 [args])
            | .ok rep => (.ok rep, [args])

/-! ## Batch upload endpoint (src/api_main.py)

`upload_resumes` iterates over the submitted files; the Gemini extraction is
an oracle, and the per-file uuid source is supplied by pairing each file with
a fresh id.  One entry is appended to `results` per file. -/

/-- Allow-listed media types (api_main.py, lines 33-37). -/
def allowed_content_types : List String :=
  ["application/pdf",
   "application/vnd.openxmlformats-officedocument.wordprocessingml.document",
   "text/plain"]

structure UploadFile where
  filename : String
  content_type : String
deriving DecidableEq

inductive UploadResult where
  | success (filename id : String)
  | failure (filename detail : String)
deriving DecidableEq

/-- Processing of one file of the batch (api_main.py, lines 46-88): reject
disallowed media types before any external call; otherwise call the extraction
oracle and store the parsed resume; any failure becomes an error entry for
this file only.  Returns the result entry, the store update (if any), and the
external extraction calls made for this file. -/
def process_upload (oracle : UploadFile → Except String Json)
    (file : UploadFile) (fresh_id : String) :
    UploadResult × Option Json × List UploadFile :=
  if !(allowed_content_types.contains file.content_type) then
    (.failure file.filename "Unsupported file type. Please upload pdf, docx, or txt.",
     none, [])
  else
    match oracle file with
    | .ok resume =>
        -- `resume_id = save_parsed_resume(resume)` returns the fresh uuid
        (.success file.filename fresh_id, some resume, [file])
    | .error e =>
        (.failure file.filename s!"Failed to process resume: {e}", none, [file])

/-- Embeds the loop of `upload_resumes` (api_main.py, lines 44-90); successful
extractions are persisted through `save_parsed_resume`. -/
def upload_resumes (oracle : UploadFile → Except String Json) :
    List (UploadFile × String) → Store →
    List UploadResult × Store × List UploadFile
  | [], store => ([], store, [])
  | (f, fid) :: rest, store =>
      let step := process_upload oracle f fid
      let store' := match step.2.1 with
        | some r => (save_parsed_resume fid store r).2
        | none => store
      let tail := upload_resumes oracle rest store'
      (step.1 :: tail.1, tail.2.1, step.2.2 ++ tail.2.2)

/-! ## Concrete data used by counterexamples and witnesses -/

/-- Cached score payload with non-trivial gaps/keywords/recommendations. -/
def exScorePayload : Json :=
  .obj [("overall_score", .num 87),
        ("gaps", .arr [.str "Kubernetes"]),
        ("missing_keywords", .arr [.str "Docker"]),
        ("recommendations", .arr [.str "Add Docker experience"])]

/-- Cache envelope as written by `save_ats_score`: the score payload sits
under the `"score"` key, next to the hash and the preview. -/
def exEnvelope : Json :=
  .obj [("job_description_hash", .str "h1"),
        ("job_description_preview", .str "Python role"),
        ("score", exScorePayload)]

/-- Stored resume record holding that envelope under hash `"h1"`. -/
def exRecord : Json :=
  .obj [("full_name", .str "Jane Doe"),
        ("skills", .arr [.str "Python"]),
        ("experience", .arr []),
        ("ats_scores", .obj [("h1", exEnvelope)])]

/-- Response builder for the salary oracle: a payload that is valid except
possibly for the ordering of the two range bounds. -/
def mkSalaryResp (minq maxq : ℚ) : Json :=
  .obj [("recommended_range",
          .obj [("min_salary", .num minq), ("max_salary", .num maxq)]),
        ("market_median", .num 100000),
        ("percentile_25", .num 80000),
        ("percentile_75", .num 120000),
        ("analysis_summary", .str "Market analysis summary.")]

/-- A minimal truthy resume record without derived artifacts. -/
def exBareRecord : Json := .obj [("full_name", .str "Jane Doe")]

/-- Learning-path entry in JSON form with the given phase number. -/
def mkPhaseJson (p : ℚ) : Json :=
  .obj [("phase", .num p), ("title", .str "Foundation"),
        ("duration", .str "2 weeks")]

/-- Upskilling payload whose learning path numbers its phases 1 and 3,
skipping 2. -/
def exSkippedPhaseReport : Json :=
  .obj [("learning_path", .arr [mkPhaseJson 1, mkPhaseJson 3]),
        ("estimated_total_duration", .str "6 weeks"),
        ("career_impact", .str "High"),
        ("report_summary", .str "Plan.")]

/-- Constant scoring oracle used by witnesses (section scores all `None`,
hence trivially within bounds). -/
def exOracleScore : ATSScore :=
  ⟨80, ⟨none, none, none, none⟩, ["Python"], [], [], [], ["Python"], none⟩

def exOracle : Json → String → ATSScore := fun _ _ => exOracleScore

/-- Store holding one bare record under id `"r1"`. -/
def exStore : Store := [("r1", exBareRecord)]

/-- Record that differs from `exBareRecord` only by a cached `ats_scores`. -/
def exBareRecordWithCache : Json :=
  .obj [("full_name", .str "Jane Doe"),
        ("ats_scores", .obj [("h0", .str "stale")])]

def exStoreWithCache : Store := [("r1", exBareRecordWithCache)]

/-- The typed report that `exSkippedPhaseReport` parses to. -/
def exSkippedPhaseParsed : UpskillingReport :=
  ⟨[], [], [],
   [⟨1, "Foundation", [], [], [], "2 weeks", []⟩,
    ⟨3, "Foundation", [], [], [], "2 weeks", []⟩],
   [], "6 weeks", "High", "Plan."⟩

/-- Store holding the record with a cached ATS envelope under id `"r1"`. -/
def exC7Store : Store := [("r1", exRecord)]

/-- Constant extraction oracle used by the upload witness. -/
def exExtractOracle : UploadFile → Except String Json :=
  fun _ => .ok (.obj [("full_name", .str "Jane Doe")])

def exGoodFile : UploadFile := ⟨"resume.txt", "text/plain"⟩

def exBadFile : UploadFile := ⟨"evil.zip", "application/zip"⟩

def exFiles : List (UploadFile × String) := [(exGoodFile, "id1"), (exBadFile, "id2")]

/-- Learning-path entry JSON with phase 0 (used to witness rejection). -/
def exPhase0Json : Json := mkPhaseJson 0

/-! ## Lemmas about association-list dictionaries -/

theorem lookup_cons_self {α : Type} (k : String) (v : α) (tl : List (String × α)) :
    ((k, v) :: tl).lookup k = some v := by
  simp [List.lookup_cons]

theorem lookup_cons_ne {α : Type} (k k' : String) (v : α) (tl : List (String × α))
    (h : k' ≠ k) : ((k, v) :: tl).lookup k' = tl.lookup k' := by
  rw [List.lookup_cons, show (k' == k) = false from beq_eq_false_iff_ne.mpr h]

theorem assocSet_lookup_self {α : Type} (l : List (String × α)) (k : String) (v : α) :
    (assocSet l k v).lookup k = some v := by
  induction l with
  | nil => simpa [assocSet] using lookup_cons_self k v []
  | cons hd tl ih =>
    obtain ⟨k', v'⟩ := hd
    by_cases h : k' = k
    · subst h
      simpa [assocSet] using lookup_cons_self k' v tl
    · simp only [assocSet, if_neg h]
      rw [lookup_cons_ne _ _ _ _ (fun hc => h hc.symm)]
      exact ih

theorem assocSet_lookup_ne {α : Type} (l : List (String × α)) (k k' : String) (v : α)
    (h : k' ≠ k) : (assocSet l k v).lookup k' = l.lookup k' := by
  induction l with
  | nil =>
    rw [show assocSet ([] : List (String × α)) k v = [(k, v)] from rfl,
        lookup_cons_ne _ _ _ _ h]
  | cons hd tl ih =>
    obtain ⟨k₀, v₀⟩ := hd
    by_cases hk : k₀ = k
    · subst hk
      rw [show assocSet ((k₀, v₀) :: tl) k₀ v = (k₀, v) :: tl from by simp [assocSet],
          lookup_cons_ne _ _ _ _ h, lookup_cons_ne _ _ _ _ h]
    · rw [show assocSet ((k₀, v₀) :: tl) k v = (k₀, v₀) :: assocSet tl k v from by
            simp [assocSet, hk]]
      by_cases hk' : k' = k₀
      · subst hk'
        rw [lookup_cons_self, lookup_cons_self]
      · rw [lookup_cons_ne _ _ _ _ hk', lookup_cons_ne _ _ _ _ hk', ih]

theorem lookup_filter_ne {α : Type} (l : List (String × α)) (k : String) :
    (l.filter (fun kv => kv.1 ≠ k)).lookup k = none := by
  induction l with
  | nil => simp [List.lookup]
  | cons hd tl ih =>
    obtain ⟨k₀, v₀⟩ := hd
    by_cases h : k₀ = k
    · simpa [List.filter_cons, h] using ih
    · simp only [List.filter_cons]
      rw [if_pos (by simpa using h)]
      rw [lookup_cons_ne _ _ _ _ (fun hc => h hc.symm)]
      exact ih

theorem objGet_objSet_self (kvs : List (String × Json)) (k : String) (v : Json) :
    ((Json.obj kvs).objSet k v).objGet k = some v := by
  simp [Json.objSet, Json.objGet, assocSet_lookup_self]

/-! ## Claim C1: cache-key digest -/

/-- C1.  The cache-key digest is a deterministic pure function of the
job-description text only: texts with equal stripped forms get equal digests,
and the digest is by construction the first 32 hex characters of the SHA-256
hash of the trimmed text.  (`hash_job_description` takes no other input, so
the digest is independent of resume content, and it is a pure function, so it
is stable across runs.) -/
theorem C1_digest_deterministic (a b : String) (h : pyStrip a = pyStrip b) :
    hash_job_description a = hash_job_description b ∧
    hash_job_description a = (SHA256.sha256hex (utf8Bytes (pyStrip a))).take 32 := by
  refine ⟨?_, rfl⟩
  unfold hash_job_description
  rw [h]

/-- Witness for C1 at concrete texts differing only in surrounding whitespace. -/
theorem C1_digest_deterministic_witness :
    pyStrip "  Python engineer\n" = pyStrip "Python engineer" ∧
    hash_job_description "  Python engineer\n" = hash_job_description "Python engineer" := by
  refine ⟨by decide, (C1_digest_deterministic _ _ (by decide)).1⟩

/-! ## Round-trip of the score schema -/

theorem mapM_parseStr_map (l : List String) :
    (l.map Json.str).mapM parseStr = Except.ok l := by
  induction l with
  | nil => rfl
  | cons hd tl ih =>
    simp only [List.map_cons, List.mapM_cons, parseStr, ih]
    rfl

theorem parseStrListD_strListJson (j : Json) (k : String) (l : List String)
    (h : j.objGet k = some (strListJson l)) : parseStrListD j k = .ok l := by
  unfold parseStrListD
  rw [h]
  simp only [strListJson]
  exact mapM_parseStr_map l

theorem parseOptStr_optStrJson (j : Json) (k : String) (o : Option String)
    (h : j.objGet k = some (optStrJson o)) : parseOptStr j k = .ok o := by
  unfold parseOptStr
  rw [h]
  cases o <;> rfl

theorem parseOptScoreInt_optIntJson (j : Json) (k : String) (o : Option Int)
    (hb : ∀ n ∈ o, 0 ≤ n ∧ n ≤ 100)
    (h : j.objGet k = some (optIntJson o)) : parseOptScoreInt j k = .ok o := by
  unfold parseOptScoreInt
  rw [h]
  cases o with
  | none => rfl
  | some n =>
    have hbn := hb n rfl
    simp [optIntJson, Rat.den_intCast, Rat.num_intCast, hbn.1, hbn.2]

theorem parseScoreInt_num (j : Json) (k : String) (n : Int)
    (hb : 0 ≤ n ∧ n ≤ 100)
    (h : j.objGet k = some (.num n)) : parseScoreInt j k = .ok n := by
  unfold parseScoreInt
  rw [h]
  simp [Rat.den_intCast, Rat.num_intCast, hb.1, hb.2]

theorem sectionScore_validate_roundtrip (s : SectionScore) (hv : s.Valid) :
    SectionScore.model_validate s.toJson = .ok s := by
  obtain ⟨h1, h2, h3, h4⟩ := hv
  have e1 := parseOptScoreInt_optIntJson s.toJson "skills_match" s.skills_match h1 rfl
  have e2 := parseOptScoreInt_optIntJson s.toJson "experience_relevance"
    s.experience_relevance h2 rfl
  have e3 := parseOptScoreInt_optIntJson s.toJson "education_fit" s.education_fit h3 rfl
  have e4 := parseOptScoreInt_optIntJson s.toJson "keyword_optimization"
    s.keyword_optimization h4 rfl
  simp only [SectionScore.model_validate, e1, e2, e3, e4]
  rfl

theorem atsScore_validate_roundtrip (s : ATSScore) (hv : s.Valid) :
    ATSScore.model_validate s.toJson = .ok s := by
  obtain ⟨h0, h100, hsec⟩ := hv
  have hov := parseScoreInt_num s.toJson "overall_score" s.overall_score ⟨h0, h100⟩ rfl
  have hsj : s.toJson.objGet "section_scores" = some s.section_scores.toJson := rfl
  have hss := sectionScore_validate_roundtrip s.section_scores hsec
  have hstr := parseStrListD_strListJson s.toJson "strengths" s.strengths rfl
  have hgap := parseStrListD_strListJson s.toJson "gaps" s.gaps rfl
  have hrec := parseStrListD_strListJson s.toJson "recommendations" s.recommendations rfl
  have hmis := parseStrListD_strListJson s.toJson "missing_keywords" s.missing_keywords rfl
  have hmat := parseStrListD_strListJson s.toJson "matched_keywords" s.matched_keywords rfl
  have hsum := parseOptStr_optStrJson s.toJson "summary" s.summary rfl
  simp only [ATSScore.model_validate, hov, hsj, hss, hstr, hgap, hrec, hmis, hmat, hsum]
  rfl

/-! ## Lemmas about the file-system step model -/

theorem lookup_applyStep_openTrunc_ne (fs : FS) (p dest : String) (h : dest ≠ p) :
    (applyStep fs (.openTrunc p)).lookup dest = fs.lookup dest := by
  simp [applyStep, assocSet_lookup_ne _ _ _ _ h]

theorem lookup_applyStep_writeChunk_ne (fs : FS) (p d dest : String) (h : dest ≠ p) :
    (applyStep fs (.writeChunk p d)).lookup dest = fs.lookup dest := by
  simp only [applyStep]
  cases hc : fs.lookup p with
  | none => rfl
  | some c => simp [assocSet_lookup_ne _ _ _ _ h]

theorem runSteps_cons (fs : FS) (st : IOStep) (steps : List IOStep) :
    runSteps fs (st :: steps) = runSteps (applyStep fs st) steps := rfl

theorem runSteps_append (fs : FS) (l₁ l₂ : List IOStep) :
    runSteps fs (l₁ ++ l₂) = runSteps (runSteps fs l₁) l₂ := by
  simp [runSteps, List.foldl_append]

theorem string_foldl_append (l : List String) (a b : String) :
    l.foldl (fun r s => r ++ s) (a ++ b) = a ++ l.foldl (fun r s => r ++ s) b := by
  induction l generalizing b with
  | nil => rfl
  | cons hd tl ih =>
    simp only [List.foldl_cons]
    rw [String.append_assoc, ih]

theorem string_join_cons (hd : String) (tl : List String) :
    String.join (hd :: tl) = hd ++ String.join tl := by
  simp only [String.join, List.foldl_cons]
  rw [show ("" ++ hd : String) = hd ++ "" from by simp, string_foldl_append]

/-- Steps that only touch a path other than `dest` leave `dest` unchanged. -/
theorem lookup_runSteps_ne (steps : List IOStep) (fs : FS) (dest : String)
    (h : ∀ st ∈ steps,
      (∃ p d, st = .writeChunk p d ∧ dest ≠ p) ∨ (∃ p, st = .openTrunc p ∧ dest ≠ p)) :
    (runSteps fs steps).lookup dest = fs.lookup dest := by
  induction steps generalizing fs with
  | nil => rfl
  | cons hd tl ih =>
    have hstep : (applyStep fs hd).lookup dest = fs.lookup dest := by
      rcases h hd (by simp) with ⟨p, d, rfl, hne⟩ | ⟨p, rfl, hne⟩
      · exact lookup_applyStep_writeChunk_ne fs p d dest hne
      · exact lookup_applyStep_openTrunc_ne fs p dest hne
    rw [runSteps_cons, ih _ (fun st hst => h st (List.mem_cons_of_mem _ hst)), hstep]

/-- Writing a list of chunks to an open file accumulates their concatenation. -/
theorem lookup_runSteps_writes_self (chunks : List String) (fs : FS) (p c : String)
    (h : fs.lookup p = some c) :
    (runSteps fs (chunks.map (IOStep.writeChunk p))).lookup p =
      some (c ++ String.join chunks) := by
  induction chunks generalizing fs c with
  | nil =>
    simpa [runSteps, String.join] using h
  | cons hd tl ih =>
    have hstep : (applyStep fs (.writeChunk p hd)).lookup p = some (c ++ hd) := by
      simp only [applyStep]
      rw [h]
      exact assocSet_lookup_self fs p (c ++ hd)
    rw [List.map_cons, runSteps_cons, ih _ _ hstep, string_join_cons,
        String.append_assoc]

/-! ## Claim C3: write discipline -/

/-- C3 counterexample.  The claim states that every record-file write — the
create in `save_parsed_resume` as well as the merge in `save_ats_score` —
goes through a temp file plus atomic rename, so that a reader never observes
a torn file.  This is false for `save_parsed_resume`: its trace opens the
destination itself in `"w"` mode, so immediately after the open (before the
JSON is streamed) a reader of `resume.json` sees an empty, invalid document,
which is neither the old state (no file) nor the complete new document. -/
theorem C3_counterexample :
    ¬ NeverTorn [] (save_parsed_resume_trace "resume.json" ["[1, 2, 3]"])
        "resume.json" "[1, 2, 3]" := by
  intro h
  rcases h [.openTrunc "resume.json"] ⟨_, rfl⟩ with h1 | h1 <;>
    simp [runSteps, applyStep, assocSet, List.lookup] at h1

/-- C3 amended.  Only the merge write (`save_ats_score`, resume_store.py lines
114-119) follows the temp-file-plus-atomic-rename discipline: at every prefix
of its step trace the destination holds either its original content or the
complete new document.  The create write (`save_parsed_resume`) does not (see
the counterexample). -/
theorem C3_merge_write_atomic (fs0 : FS) (tmp dest : String) (chunks : List String)
    (hne : dest ≠ tmp) (htmp : fs0.lookup tmp = none) :
    NeverTorn fs0 (save_ats_score_trace tmp dest chunks) dest (String.join chunks) := by
  intro pre hpre
  unfold save_ats_score_trace at hpre
  cases pre with
  | nil => exact Or.inl rfl
  | cons y ys =>
    obtain ⟨t, ht⟩ := hpre
    injection ht with hy hys
    subst hy
    have hys' : ys <+: chunks.map (IOStep.writeChunk tmp) ++ [.rename tmp dest] := ⟨t, hys⟩
    rcases List.prefix_concat_iff.mp hys' with hfull | hmid
    · -- the complete trace: the rename has happened, dest holds the new document
      subst hfull
      right
      rw [runSteps_cons, runSteps_append]
      have h1 : (applyStep fs0 (.openTrunc tmp)).lookup tmp = some "" := by
        simp [applyStep, assocSet_lookup_self]
      have h2 := lookup_runSteps_writes_self chunks (applyStep fs0 (.openTrunc tmp)) tmp "" h1
      rw [show ("" ++ String.join chunks) = String.join chunks from by simp] at h2
      rw [show runSteps (runSteps (applyStep fs0 (.openTrunc tmp))
            (chunks.map (IOStep.writeChunk tmp))) [.rename tmp dest] =
          applyStep (runSteps (applyStep fs0 (.openTrunc tmp))
            (chunks.map (IOStep.writeChunk tmp))) (.rename tmp dest) from rfl]
      simp only [applyStep] at h2 ⊢
      rw [h2]
      exact assocSet_lookup_self _ dest (String.join chunks)
    · -- a strict prefix: only the temp path has been touched, dest is unchanged
      left
      rw [runSteps_cons]
      rw [lookup_runSteps_ne ys _ dest (fun st hst => by
        have hmem := List.IsPrefix.mem hst hmid
        obtain ⟨d, _, rfl⟩ := List.mem_map.mp hmem
        exact Or.inl ⟨tmp, d, rfl, hne⟩)]
      exact lookup_applyStep_openTrunc_ne fs0 tmp dest hne

/-- Witness for C3 (amended theorem) at a concrete temp path, destination and
chunk list. -/
theorem C3_merge_write_atomic_witness :
    "resume.json" ≠ "tmpabc123.tmp" ∧
    NeverTorn [("resume.json", "old")]
      (save_ats_score_trace "tmpabc123.tmp" "resume.json" ["[1,", " 2]"])
      "resume.json" (String.join ["[1,", " 2]"]) := by
  exact ⟨by decide,
    C3_merge_write_atomic [("resume.json", "old")] "tmpabc123.tmp" "resume.json"
      ["[1,", " 2]"] (by decide) rfl⟩

/-! ## Claim C4: create on identifier collision -/

/-- C4 counterexample.  The claim states that `save_parsed_resume` fails with
a storage error, without overwriting, when a file for the freshly generated
identifier already exists.  In the source there is no existence check:
`output_path.open("w")` truncates and overwrites, and the function is total.
Here a record for id `"b2f7"` already exists and a new create with the same
fresh uuid succeeds, silently replacing the old content. -/
theorem C4_counterexample :
    (save_parsed_resume "b2f7" [("b2f7", Json.str "old record")]
        (Json.str "new record")).2.lookup "b2f7" = some (Json.str "new record") ∧
    Json.str "new record" ≠ Json.str "old record" := by
  constructor
  · rfl
  · intro hc
    injection hc with hs
    exact absurd hs (by decide)

/-- C4 amended.  `save_parsed_resume` allocates the supplied fresh identifier
and always succeeds, writing the record under that id; a pre-existing file for
the same identifier is silently overwritten (collision avoidance rests only on
the astronomically small uuid4 collision probability). -/
theorem C4_create_overwrites (fresh : String) (store : Store) (resume : Json) :
    (save_parsed_resume fresh store resume).1 = fresh ∧
    (save_parsed_resume fresh store resume).2.lookup fresh = some resume :=
  ⟨rfl, assocSet_lookup_self store fresh resume⟩

/-! ## Claim C2: cached scoring is deterministic and frugal -/

/-- After `save_ats_score` writes the envelope, the cache lookup for the same
resume id and job description returns exactly that envelope. -/
theorem get_cached_after_save (store : Store) (resume_id jd : String) (p : Json)
    (kvs : List (String × Json)) (store' : Store)
    (hdata : store.lookup resume_id = some (.obj kvs))
    (hats : ∀ v, (Json.obj kvs).objGet "ats_scores" = some v → ∃ m, v = .obj m)
    (hsave : save_ats_score store resume_id jd p = .ok store') :
    get_cached_ats_score store' resume_id jd = some (ats_envelope jd p) := by
  simp only [save_ats_score, hdata] at hsave
  by_cases hk : (Json.obj kvs).hasKey "ats_scores"
  · obtain ⟨v, hv⟩ := Option.isSome_iff_exists.mp hk
    obtain ⟨m, rfl⟩ := hats v hv
    rw [if_pos hk] at hsave
    rw [show (Json.obj kvs).pyGet "ats_scores" (.obj []) = .obj m from by
          simp [Json.pyGet, hv]] at hsave
    have hst : store' =
        assocSet store resume_id
          ((Json.obj kvs).objSet "ats_scores"
            ((Json.obj m).objSet (hash_job_description jd) (ats_envelope jd p))) := by
      cases hsave
      rfl
    subst hst
    simp only [get_cached_ats_score, assocSet_lookup_self]
    rw [show ((Json.obj kvs).objSet "ats_scores"
          ((Json.obj m).objSet (hash_job_description jd) (ats_envelope jd p))).pyGet
            "ats_scores" (.obj []) =
        (Json.obj m).objSet (hash_job_description jd) (ats_envelope jd p) from by
      simp [Json.pyGet, objGet_objSet_self]]
    exact objGet_objSet_self m (hash_job_description jd) (ats_envelope jd p)
  · rw [if_neg hk] at hsave
    rw [show ((Json.obj kvs).objSet "ats_scores" (.obj [])).pyGet "ats_scores"
          (.obj []) = Json.obj [] from by
      simp [Json.pyGet, objGet_objSet_self]] at hsave
    have hst : store' =
        assocSet store resume_id
          (((Json.obj kvs).objSet "ats_scores" (.obj [])).objSet "ats_scores"
            ((Json.obj []).objSet (hash_job_description jd) (ats_envelope jd p))) := by
      cases hsave
      rfl
    subst hst
    simp only [get_cached_ats_score, assocSet_lookup_self]
    rw [show (((Json.obj kvs).objSet "ats_scores" (.obj [])).objSet "ats_scores"
          ((Json.obj []).objSet (hash_job_description jd) (ats_envelope jd p))).pyGet
            "ats_scores" (.obj []) =
        (Json.obj []).objSet (hash_job_description jd) (ats_envelope jd p) from by
      simp only [Json.objSet]
      simp [Json.pyGet, Json.objGet, assocSet_lookup_self]]
    exact objGet_objSet_self [] (hash_job_description jd) (ats_envelope jd p)

/-- Characterisation of the miss path when the record exists: the external
scorer is called exactly once with the cleaned record, and its result is
cached and returned. -/
theorem score_miss_spec (oracle : Json → String → ATSScore) (store : Store)
    (resume_id jd : String) (kvs : List (String × Json))
    (hdata : store.lookup resume_id = some (.obj kvs)) :
    ∃ store',
      score_miss oracle store resume_id jd =
        .ok (oracle ((Json.obj kvs).stripKey "ats_scores") jd, store',
             [⟨(Json.obj kvs).stripKey "ats_scores", jd⟩]) ∧
      save_ats_score store resume_id jd
        ((oracle ((Json.obj kvs).stripKey "ats_scores") jd).toJson) = .ok store' := by
  simp only [score_miss, load_parsed_resume, hdata, save_ats_score]
  exact ⟨_, rfl, rfl⟩

/-- C2.  For a stored record (a JSON object whose `ats_scores` member, if
present, is an object — which is what the store writes), two successive
`score(id, jd, use_cache=True)` calls: if the first returns a payload, the
second returns the identical payload from the cache entry the first call
wrote (or that both read), leaves the store unchanged, makes no external
call, and the two calls together make at most one external scoring call. -/
theorem C2_score_cached_deterministic
    (oracle : Json → String → ATSScore) (store : Store) (resume_id jd : String)
    (kvs : List (String × Json))
    (hdata : store.lookup resume_id = some (.obj kvs))
    (hats : ∀ v, (Json.obj kvs).objGet "ats_scores" = some v → ∃ m, v = .obj m)
    (hval : ∀ d j, (oracle d j).Valid)
    (r1 : ATSScore) (s1 : Store) (c1 : List ScoreCall)
    (h1 : ATSScorer.score oracle store resume_id jd true = .ok (r1, s1, c1)) :
    ATSScorer.score oracle s1 resume_id jd true = .ok (r1, s1, []) ∧
    c1.length + ([] : List ScoreCall).length ≤ 1 := by
  have hscore : ∀ (st : Store), ATSScorer.score oracle st resume_id jd true =
      match get_cached_ats_score st resume_id jd with
      | some cached_score =>
          if cached_score.pyTruthy then score_hit st cached_score
          else score_miss oracle st resume_id jd
      | none => score_miss oracle st resume_id jd := fun st => rfl
  have hmiss : score_miss oracle store resume_id jd = .ok (r1, s1, c1) →
      ATSScorer.score oracle s1 resume_id jd true = .ok (r1, s1, []) ∧
      c1.length + ([] : List ScoreCall).length ≤ 1 := by
    intro hm
    obtain ⟨store', hrun, hsave⟩ := score_miss_spec oracle store resume_id jd kvs hdata
    rw [hrun] at hm
    have hr : oracle ((Json.obj kvs).stripKey "ats_scores") jd = r1 := by
      cases hm
      rfl
    have hs : store' = s1 := by
      cases hm
      rfl
    have hc : c1 = [⟨(Json.obj kvs).stripKey "ats_scores", jd⟩] := by
      cases hm
      rfl
    rw [hr, hs] at hsave
    constructor
    · have hcache := get_cached_after_save store resume_id jd _ kvs s1 hdata hats hsave
      rw [hscore s1, hcache]
      have htr : (ats_envelope jd r1.toJson).pyTruthy = true := rfl
      show (if (ats_envelope jd r1.toJson).pyTruthy then
              score_hit s1 (ats_envelope jd r1.toJson)
            else score_miss oracle s1 resume_id jd) = .ok (r1, s1, [])
      rw [if_pos htr]
      have hpg : (ats_envelope jd r1.toJson).pyGet "score" (ats_envelope jd r1.toJson) =
          r1.toJson := rfl
      have hvr := atsScore_validate_roundtrip r1 (by rw [← hr]; exact hval _ _)
      simp only [score_hit, hpg, hvr]
    · rw [hc]
      simp
  rw [hscore store] at h1
  cases hget : get_cached_ats_score store resume_id jd with
  | none =>
    rw [hget] at h1
    exact hmiss h1
  | some cached =>
    rw [hget] at h1
    have h1a : (if cached.pyTruthy then score_hit store cached
                else score_miss oracle store resume_id jd) = .ok (r1, s1, c1) := h1
    by_cases htr : cached.pyTruthy = true
    · rw [if_pos htr] at h1a
      have h1' : (match ATSScore.model_validate (cached.pyGet "score" cached) with
          | Except.ok s => (Except.ok (s, store, []) :
              Except Err (ATSScore × Store × List ScoreCall))
          | Except.error e => Except.error (.validationError e)) = .ok (r1, s1, c1) := h1a
      cases hvv : ATSScore.model_validate (cached.pyGet "score" cached) with
      | ok s =>
        rw [hvv] at h1'
        have hr : s = r1 := by
          cases h1'
          rfl
        have hs : store = s1 := by
          cases h1'
          rfl
        have hc : c1 = [] := by
          cases h1'
          rfl
        subst hs
        constructor
        · rw [hscore store, hget]
          show (if cached.pyTruthy then score_hit store cached
                else score_miss oracle store resume_id jd) = .ok (r1, store, [])
          rw [if_pos htr]
          have hsh : score_hit store cached = .ok (s, store, []) := by
            simp only [score_hit, hvv]
          rw [hsh, hr]
        · rw [hc]
          simp
      | error e =>
        rw [hvv] at h1'
        cases h1'
    · rw [if_neg htr] at h1a
      exact hmiss h1a

/-- Witness for C2: a concrete store, record and oracle; the first call
succeeds and the theorem yields the identical second result with no second
external call. -/
theorem C2_score_cached_deterministic_witness :
    ∃ r1 s1 c1,
      ATSScorer.score exOracle exStore "r1" "Python developer" true = .ok (r1, s1, c1) ∧
      ATSScorer.score exOracle s1 "r1" "Python developer" true = .ok (r1, s1, []) ∧
      c1.length + ([] : List ScoreCall).length ≤ 1 := by
  obtain ⟨r1, s1, c1, h1⟩ :
      ∃ r1 s1 c1, ATSScorer.score exOracle exStore "r1" "Python developer" true =
        .ok (r1, s1, c1) := ⟨_, _, _, rfl⟩
  have hvalid : exOracleScore.Valid := by
    refine ⟨by decide, by decide, ?_, ?_, ?_, ?_⟩ <;>
      intro n hn <;> simp [exOracleScore] at hn
  exact ⟨r1, s1, c1, h1,
    C2_score_cached_deterministic exOracle exStore "r1" "Python developer"
      [("full_name", .str "Jane Doe")] rfl
      (fun v hv => by cases hv)
      (fun d j => hvalid)
      r1 s1 c1 h1⟩

/-! ## Claim C5: cached scores never reach the external scorer -/

/-- C5.  For two stored records that differ only in their `ats_scores` member
(everything else equal), forcing the scoring path (`use_cache=False`) sends
exactly one external request each, and the two requests are identical;
moreover the request payload contains no `ats_scores` key at all, so cached
scores cannot influence or leak into the scoring prompt. -/
theorem C5_no_cached_score_leak (oracle : Json → String → ATSScore)
    (store1 store2 : Store) (resume_id jd : String)
    (kvs1 kvs2 : List (String × Json))
    (h1 : store1.lookup resume_id = some (.obj kvs1))
    (h2 : store2.lookup resume_id = some (.obj kvs2))
    (hdiff : kvs1.filter (fun kv => kv.1 ≠ "ats_scores") =
             kvs2.filter (fun kv => kv.1 ≠ "ats_scores")) :
    ∃ r s1' s2' call,
      ATSScorer.score oracle store1 resume_id jd false = .ok (r, s1', [call]) ∧
      ATSScorer.score oracle store2 resume_id jd false = .ok (r, s2', [call]) ∧
      call.resume_data.objGet "ats_scores" = none := by
  have hsc : ∀ (st : Store), ATSScorer.score oracle st resume_id jd false =
      score_miss oracle st resume_id jd := fun st => rfl
  obtain ⟨s1', hr1, _⟩ := score_miss_spec oracle store1 resume_id jd kvs1 h1
  obtain ⟨s2', hr2, _⟩ := score_miss_spec oracle store2 resume_id jd kvs2 h2
  have hclean : (Json.obj kvs1).stripKey "ats_scores" =
      (Json.obj kvs2).stripKey "ats_scores" := by
    simp only [Json.stripKey]
    rw [hdiff]
  refine ⟨oracle ((Json.obj kvs1).stripKey "ats_scores") jd, s1', s2',
    ⟨(Json.obj kvs1).stripKey "ats_scores", jd⟩, ?_, ?_, ?_⟩
  · rw [hsc store1]
    exact hr1
  · rw [hsc store2, hr2, hclean]
  · show ((Json.obj kvs1).stripKey "ats_scores").objGet "ats_scores" = none
    simp only [Json.stripKey, Json.objGet]
    exact lookup_filter_ne kvs1 "ats_scores"

/-- Witness for C5: two concrete records differing only in `ats_scores`. -/
theorem C5_no_cached_score_leak_witness :
    exStore.lookup "r1" = some (.obj [("full_name", .str "Jane Doe")]) ∧
    exStoreWithCache.lookup "r1" = some (.obj [("full_name", .str "Jane Doe"),
      ("ats_scores", .obj [("h0", .str "stale")])]) ∧
    ∃ r s1' s2' call,
      ATSScorer.score exOracle exStore "r1" "jd text" false = .ok (r, s1', [call]) ∧
      ATSScorer.score exOracle exStoreWithCache "r1" "jd text" false =
        .ok (r, s2', [call]) ∧
      call.resume_data.objGet "ats_scores" = none := by
  refine ⟨rfl, rfl, ?_⟩
  exact C5_no_cached_score_leak exOracle exStore exStoreWithCache "r1" "jd text"
    [("full_name", .str "Jane Doe")]
    [("full_name", .str "Jane Doe"), ("ats_scores", .obj [("h0", .str "stale")])]
    rfl rfl rfl

/-! ## Claim C6: learning-path phase validation -/

theorem except_bind_ok {α β : Type} {x : Except String α} {f : α → Except String β}
    {b : β} (h : x >>= f = .ok b) : ∃ a, x = .ok a ∧ f a = .ok b := by
  cases x with
  | ok a => exact ⟨a, rfl, h⟩
  | error e => exact absurd h (by simp [Bind.bind, Except.bind])

theorem mapM_ok_forall {α : Type} (p : Json → Except String α) (xs : List Json)
    (l : List α) (h : xs.mapM p = .ok l) : ∀ x ∈ l, ∃ jx ∈ xs, p jx = .ok x := by
  induction xs generalizing l with
  | nil =>
    have hl : l = [] := by
      simp only [List.mapM_nil] at h
      cases h
      rfl
    subst hl
    intro x hx
    cases hx
  | cons hd tl ih =>
    rw [List.mapM_cons] at h
    obtain ⟨y, hy, h⟩ := except_bind_ok h
    obtain ⟨ys, hys, h⟩ := except_bind_ok h
    have hl : l = y :: ys := by
      cases h
      rfl
    subst hl
    intro x hx
    rcases List.mem_cons.mp hx with rfl | hx
    · exact ⟨hd, List.mem_cons_self hd tl, hy⟩
    · obtain ⟨jx, hjx, hpx⟩ := ih ys hys x hx
      exact ⟨jx, List.mem_cons_of_mem hd hjx, hpx⟩

/-- A learning-path entry that passed validation has a positive phase. -/
theorem LearningPath.model_validate_phase_pos (j : Json) (lp : LearningPath)
    (h : LearningPath.model_validate j = .ok lp) : 0 < lp.phase := by
  unfold LearningPath.model_validate at h
  obtain ⟨raw, hraw, h⟩ := except_bind_ok h
  obtain ⟨ph, hph, h⟩ := except_bind_ok h
  obtain ⟨ti, hti, h⟩ := except_bind_ok h
  obtain ⟨sf, hsf, h⟩ := except_bind_ok h
  obtain ⟨res, hres, h⟩ := except_bind_ok h
  obtain ⟨pr, hpr, h⟩ := except_bind_ok h
  obtain ⟨du, hdu, h⟩ := except_bind_ok h
  obtain ⟨ob, hob, h⟩ := except_bind_ok h
  have hlp : lp = ⟨ph, ti, sf, res, pr, du, ob⟩ := by
    cases h
    rfl
  subst hlp
  unfold LearningPath.validate_phase at hph
  by_cases hle : raw ≤ 0
  · rw [if_pos hle] at hph
    cases hph
  · rw [if_neg hle] at hph
    have : raw = ph := by
      cases hph
      rfl
    subst this
    exact lt_of_not_le hle

/-- C6 counterexample.  The claim states that a payload that skips a phase
number fails validation.  This report numbers its learning-path phases 1 and 3
(skipping 2) and passes `UpskillingReport` validation: the only constraint the
source enforces (insights.py lines 165-174) is per-entry positivity, and no
validator relates the phases of different entries. -/
theorem C6_counterexample :
    UpskillingReport.model_validate exSkippedPhaseReport = .ok exSkippedPhaseParsed := by
  rfl

/-- C6 amended.  Validation rejects any learning-path entry whose phase is not
positive — in particular phase 0 — and this is the only phase constraint:
every validated report has all phases positive, but sequentiality (no skipped
numbers) is not enforced (see the counterexample). -/
theorem C6_phase_validation :
    (∀ j r, UpskillingReport.model_validate j = .ok r →
        ∀ lp ∈ r.learning_path, 0 < lp.phase) ∧
    (∀ j, j.objGet "phase" = some (.num 0) →
        ∃ e, LearningPath.model_validate j = .error e) := by
  constructor
  · intro j r h lp hlp
    unfold UpskillingReport.model_validate at h
    obtain ⟨ig, hig, h⟩ := except_bind_ok h
    obtain ⟨ts, hts, h⟩ := except_bind_ok h
    obtain ⟨ar, har, h⟩ := except_bind_ok h
    obtain ⟨lps, hlps, h⟩ := except_bind_ok h
    obtain ⟨ps, hps, h⟩ := except_bind_ok h
    obtain ⟨etd, hetd, h⟩ := except_bind_ok h
    obtain ⟨ci, hci, h⟩ := except_bind_ok h
    obtain ⟨rs, hrs, h⟩ := except_bind_ok h
    have hr : r = ⟨ig, ts, ar, lps, ps, etd, ci, rs⟩ := by
      cases h
      rfl
    subst hr
    unfold parseModelListD at hlps
    cases hjl : j.objGet "learning_path" with
    | none =>
      rw [hjl] at hlps
      have : lps = [] := by
        cases hlps
        rfl
      subst this
      cases hlp
    | some v =>
      rw [hjl] at hlps
      cases v with
      | arr xs =>
        obtain ⟨jx, _, hpx⟩ := mapM_ok_forall LearningPath.model_validate xs lps hlps lp hlp
        exact LearningPath.model_validate_phase_pos jx lp hpx
      | null => cases hlps
      | bool b => cases hlps
      | num q => cases hlps
      | str s => cases hlps
      | obj kvs => cases hlps
  · intro j hj
    have hp : parseInt j "phase" = .ok 0 := by
      unfold parseInt
      rw [hj]
      rfl
    refine ⟨"Phase must be a positive 1-based integer (greater than 0), got 0. Learning path phases should start at 1 and increment sequentially.", ?_⟩
    unfold LearningPath.model_validate
    rw [hp]
    rfl

/-- Witness for C6 (amended theorem): a report that validates has positive
phases, and a concrete phase-0 entry is rejected. -/
theorem C6_phase_validation_witness :
    (∀ lp ∈ exSkippedPhaseParsed.learning_path, 0 < lp.phase) ∧
    (exPhase0Json.objGet "phase" = some (.num 0) ∧
      ∃ e, LearningPath.model_validate exPhase0Json = .error e) := by
  refine ⟨C6_phase_validation.1 exSkippedPhaseReport exSkippedPhaseParsed rfl, rfl, ?_⟩
  exact C6_phase_validation.2 exPhase0Json rfl

/-! ## Claim C7: ATS context folded into the upskilling request -/

/-- C7.  The claim (and the spec) say that when `job_description_hash` matches
a cached score envelope, that score's gaps, missing keywords and
recommendations are included in the request context.  The code reads
`ats_data.get('gaps', [])` etc. from the top level of the cache envelope, but
`save_ats_score` nests the score payload under the envelope's `"score"` key,
so every one of these reads falls back to its default: for a record whose
cached score has gaps `["Kubernetes"]`, missing keywords `["Docker"]` and
recommendations `["Add Docker experience"]`, the context sent to the external
generator contains only empty lists and an `N/A` score.  The second conjunct
evaluates the request the service actually makes; the remaining conjuncts
show the data that the claim says should have been folded in. -/
theorem C7_ats_context_reads_wrong_level :
    build_ats_context exRecord (some "h1") =
      "\n\nATS Analysis for Target Role:\n- Overall ATS Score: N/A/100\n- Identified Gaps: \n- Missing Keywords: \n- Matched Keywords: \n- ATS Recommendations: \n\nPlease prioritize addressing the identified gaps and missing keywords in your upskilling recommendations.\n" ∧
    (get_upskilling_recommendations (fun _ => .error "provider down") exC7Store "r1"
        (some "h1") none).2.map (fun a => a.ats_context) =
      ["\n\nATS Analysis for Target Role:\n- Overall ATS Score: N/A/100\n- Identified Gaps: \n- Missing Keywords: \n- Matched Keywords: \n- ATS Recommendations: \n\nPlease prioritize addressing the identified gaps and missing keywords in your upskilling recommendations.\n"] ∧
    jStrListD exScorePayload "gaps" = ["Kubernetes"] ∧
    jStrListD exScorePayload "missing_keywords" = ["Docker"] ∧
    jStrListD exScorePayload "recommendations" = ["Add Docker experience"] ∧
    jStrListD exEnvelope "gaps" = [] ∧
    (exEnvelope.pyGet "score" (.str "absent")).objGet "gaps" =
      some (.arr [.str "Kubernetes"]) := by
  exact ⟨rfl, rfl, rfl, rfl, rfl, rfl, rfl⟩

/-! ## Claim C10: falsy overrides fall back to the defaults -/

/-- C10.  The presence checks in `get_salary_recommendation` are
truthiness-based (`if not x:`), so explicitly supplied falsy overrides behave
exactly as if they were omitted: `experience_years=0` is replaced by the
heuristic `len(experience) * 2`, and empty-string `job_title` / `location` are
replaced by the resume-derived value or the generic fallback. -/
theorem C10_falsy_overrides_use_defaults
    (oracle : SalaryPromptArgs → Except String Json) (store : Store)
    (resume_id : String) :
    get_salary_recommendation oracle store resume_id (some "") (some "") (some 0) =
      get_salary_recommendation oracle store resume_id none none none ∧
    (∀ experience : List Json,
        effExperienceYears (some 0) experience = experience.length * 2) ∧
    (∀ data : Json, effLocation (some "") data = effLocation none data) ∧
    (∀ experience : List Json,
        effJobTitle (some "") experience = effJobTitle none experience) :=
  ⟨rfl, fun _ => rfl, fun _ => rfl, fun _ => rfl⟩

/-! ## Claim C8: salary validation and (non-)persistence -/

/-- Validation outcome of the builder response: the `min ≤ max` range
invariant decides between rejection and the parsed recommendation. -/
theorem salary_validate_mkResp (minq maxq : ℚ) :
    SalaryRecommendation.model_validate (mkSalaryResp minq maxq) =
      if minq > maxq then .error "min_salary cannot exceed max_salary"
      else .ok ⟨⟨minq, maxq, "USD", "annual"⟩, 100000, 80000, 120000, [], [], [],
                "Market analysis summary."⟩ := by
  have hrng : SalaryRange.model_validate
      (.obj [("min_salary", .num minq), ("max_salary", .num maxq)]) =
      if minq > maxq then .error "min_salary cannot exceed max_salary"
      else .ok ⟨minq, maxq, "USD", "annual"⟩ := by
    unfold SalaryRange.model_validate
    rw [show parseNum (.obj [("min_salary", .num minq), ("max_salary", .num maxq)])
          "min_salary" = .ok minq from rfl]
    rw [show parseNum (.obj [("min_salary", .num minq), ("max_salary", .num maxq)])
          "max_salary" = .ok maxq from rfl]
    rfl
  have hexp : SalaryRecommendation.model_validate (mkSalaryResp minq maxq) =
      SalaryRange.model_validate
          (.obj [("min_salary", .num minq), ("max_salary", .num maxq)]) >>=
        (fun rng => do
          let med ← parseNum (mkSalaryResp minq maxq) "market_median"
          let p25 ← parseNum (mkSalaryResp minq maxq) "percentile_25"
          let p75 ← parseNum (mkSalaryResp minq maxq) "percentile_75"
          let kf ← parseStrListD (mkSalaryResp minq maxq) "key_factors"
          let mt ← parseStrListD (mkSalaryResp minq maxq) "market_trends"
          let src ← parseStrListD (mkSalaryResp minq maxq) "sources"
          let asum ← parseReqStr (mkSalaryResp minq maxq) "analysis_summary"
          Except.ok ⟨rng, med, p25, p75, kf, mt, src, asum⟩) := rfl
  rw [hexp, hrng]
  by_cases h : minq > maxq
  · rw [if_pos h, if_pos h]
    rfl
  · rw [if_neg h, if_neg h]
    rfl

/-- C8 counterexample.  The claim states that a salary payload passing
validation is persisted into the record under its `salary_insights` artifact
before being returned.  In the source, `get_salary_recommendation` never
writes anything: here a valid payload is returned, the store is unchanged,
and the record still has no `salary_insights` key. -/
theorem C8_counterexample :
    (get_salary_recommendation (fun _ => .ok (mkSalaryResp 90000 120000)) exStore
        "r1" none none none).1 =
      .ok ⟨⟨90000, 120000, "USD", "annual"⟩, 100000, 80000, 120000, [], [], [],
           "Market analysis summary."⟩ ∧
    (get_salary_recommendation (fun _ => .ok (mkSalaryResp 90000 120000)) exStore
        "r1" none none none).2.1 = exStore ∧
    exBareRecord.objGet "salary_insights" = none :=
  ⟨rfl, rfl, rfl⟩

/-- C8 amended.  `get_salary_recommendation` validates the external result
against the salary schema: a payload with `min_salary > max_salary` fails
validation and the call returns a generation failure (`RuntimeError`); a
payload passing validation is returned to the caller.  In neither case is
anything persisted: the store comes back unchanged on every path (there is no
`salary_insights` write anywhere in the function). -/
theorem C8_salary_validation_no_persistence (store : Store) (resume_id : String)
    (data : Json) (hdata : store.lookup resume_id = some data)
    (ht : data.pyTruthy = true) (minq maxq : ℚ) :
    (minq > maxq → ∃ e,
      (get_salary_recommendation (fun _ => .ok (mkSalaryResp minq maxq)) store
          resume_id none none none).1 = .error (.runtimeError e)) ∧
    (¬ minq > maxq →
      (get_salary_recommendation (fun _ => .ok (mkSalaryResp minq maxq)) store
          resume_id none none none).1 =
        .ok ⟨⟨minq, maxq, "USD", "annual"⟩, 100000, 80000, 120000, [], [], [],
             "Market analysis summary."⟩) ∧
    (get_salary_recommendation (fun _ => .ok (mkSalaryResp minq maxq)) store
        resume_id none none none).2.1 = store := by
  have hrun : ∀ (mn mx : ℚ),
      get_salary_recommendation (fun _ => .ok (mkSalaryResp mn mx)) store
          resume_id none none none =
        (match SalaryRecommendation.model_validate (mkSalaryResp mn mx) with
         | .error e =>
             (Except.error (.runtimeError
                s!"Failed to generate salary recommendation: {e}"),
              store,
              [⟨data.pyGet "full_name" (.str "Candidate"),
                ((data.pyGet "skills" (.arr [])).arrList.take 10),
                effExperienceYears none ((data.pyGet "experience" (.arr [])).arrList),
                (((data.pyGet "experience" (.arr [])).arrList.take 3).map
                  (fun e => e.pyGet "job_title" (.str ""))),
                effJobTitle none ((data.pyGet "experience" (.arr [])).arrList),
                effLocation none data⟩])
         | .ok rec =>
             (.ok rec,
              store,
              [⟨data.pyGet "full_name" (.str "Candidate"),
                ((data.pyGet "skills" (.arr [])).arrList.take 10),
                effExperienceYears none ((data.pyGet "experience" (.arr [])).arrList),
                (((data.pyGet "experience" (.arr [])).arrList.take 3).map
                  (fun e => e.pyGet "job_title" (.str ""))),
                effJobTitle none ((data.pyGet "experience" (.arr [])).arrList),
                effLocation none data⟩])) := by
    intro mn mx
    simp only [get_salary_recommendation, hdata, ht, Bool.not_true,
      Bool.false_eq_true, if_false]
  refine ⟨?_, ?_, ?_⟩
  · intro h
    rw [hrun minq maxq]
    rw [salary_validate_mkResp, if_pos h]
    exact ⟨_, rfl⟩
  · intro h
    rw [hrun minq maxq]
    rw [salary_validate_mkResp, if_neg h]
  · rw [hrun minq maxq]
    rw [salary_validate_mkResp]
    by_cases h : minq > maxq
    · rw [if_pos h]
    · rw [if_neg h]

/-- Witness for C8 (amended theorem): both branches at concrete bounds. -/
theorem C8_salary_validation_no_persistence_witness :
    ((5 : ℚ) > 3 ∧ ∃ e,
      (get_salary_recommendation (fun _ => .ok (mkSalaryResp 5 3)) exStore "r1"
          none none none).1 = .error (.runtimeError e)) ∧
    (¬ (90000 : ℚ) > 120000 ∧
      (get_salary_recommendation (fun _ => .ok (mkSalaryResp 90000 120000)) exStore
          "r1" none none none).1 =
        .ok ⟨⟨90000, 120000, "USD", "annual"⟩, 100000, 80000, 120000, [], [], [],
             "Market analysis summary."⟩) ∧
    (get_salary_recommendation (fun _ => .ok (mkSalaryResp 5 3)) exStore "r1"
        none none none).2.1 = exStore := by
  refine ⟨⟨by norm_num, ?_⟩, ⟨by norm_num, ?_⟩, ?_⟩
  · exact (C8_salary_validation_no_persistence exStore "r1" exBareRecord rfl rfl
      5 3).1 (by norm_num)
  · exact ((C8_salary_validation_no_persistence exStore "r1" exBareRecord rfl rfl
      90000 120000).2.1) (by norm_num)
  · exact (C8_salary_validation_no_persistence exStore "r1" exBareRecord rfl rfl
      5 3).2.2

/-! ## Claim C9: per-file isolation in batch upload -/

/-- C9.  The batch upload produces exactly one result entry per submitted
file, computed independently per file (the result list is the pointwise map of
per-file processing, so one file's failure never changes a sibling's entry);
every external extraction call carries an allow-listed media type; and a file
whose declared media type is outside the allow-list gets the
`Unsupported file type` error entry with no external call made for it. -/
theorem C9_batch_isolation (oracle : UploadFile → Except String Json)
    (files : List (UploadFile × String)) (store : Store) :
    (upload_resumes oracle files store).1.length = files.length ∧
    (upload_resumes oracle files store).1 =
      files.map (fun fi => (process_upload oracle fi.1 fi.2).1) ∧
    (∀ f ∈ (upload_resumes oracle files store).2.2,
        allowed_content_types.contains f.content_type = true) ∧
    (∀ fi ∈ files, allowed_content_types.contains fi.1.content_type = false →
      (process_upload oracle fi.1 fi.2).1 =
        .failure fi.1.filename "Unsupported file type. Please upload pdf, docx, or txt." ∧
      (process_upload oracle fi.1 fi.2).2.2 = []) := by
  have hmap : ∀ (fs : List (UploadFile × String)) (st : Store),
      (upload_resumes oracle fs st).1 =
        fs.map (fun fi => (process_upload oracle fi.1 fi.2).1) := by
    intro fs
    induction fs with
    | nil => intro st; rfl
    | cons hd tl ih =>
      intro st
      obtain ⟨f, fid⟩ := hd
      simp only [upload_resumes, List.map_cons]
      rw [ih]
  have hcalls : ∀ (fs : List (UploadFile × String)) (st : Store),
      ∀ f ∈ (upload_resumes oracle fs st).2.2,
        allowed_content_types.contains f.content_type = true := by
    intro fs
    induction fs with
    | nil =>
      intro st f hf
      cases hf
    | cons hd tl ih =>
      intro st f hf
      obtain ⟨g, gid⟩ := hd
      simp only [upload_resumes] at hf
      rcases List.mem_append.mp hf with hstep | htail
      · by_cases hct : allowed_content_types.contains g.content_type = true
        · have : (process_upload oracle g gid).2.2 = [] ∨
              (process_upload oracle g gid).2.2 = [g] := by
            unfold process_upload
            rw [hct]
            cases oracle g with
            | ok r => exact Or.inr rfl
            | error e => exact Or.inr rfl
          rcases this with hnil | hone
          · rw [hnil] at hstep
            cases hstep
          · rw [hone] at hstep
            rcases List.mem_singleton.mp hstep with rfl
            exact hct
        · have hnil : (process_upload oracle g gid).2.2 = [] := by
            unfold process_upload
            rw [Bool.eq_false_iff.mpr hct]
            rfl
          rw [hnil] at hstep
          cases hstep
      · exact ih _ f htail
  refine ⟨?_, hmap files store, hcalls files store, ?_⟩
  · rw [hmap files store, List.length_map]
  · intro fi hfi hbad
    constructor
    · unfold process_upload
      rw [hbad]
      rfl
    · unfold process_upload
      rw [hbad]
      rfl

/-- Witness for C9: a two-file batch with one allow-listed text file and one
disallowed zip file; the zip gets the unsupported-type error with no external
call, the text file is processed, and there is one result entry per file. -/
theorem C9_batch_isolation_witness :
    ((upload_resumes exExtractOracle exFiles []).1.length = exFiles.length) ∧
    ((exBadFile, "id2") ∈ exFiles ∧
      allowed_content_types.contains exBadFile.content_type = false) ∧
    (process_upload exExtractOracle exBadFile "id2").1 =
      .failure "evil.zip" "Unsupported file type. Please upload pdf, docx, or txt." ∧
    (process_upload exExtractOracle exBadFile "id2").2.2 = [] ∧
    (upload_resumes exExtractOracle exFiles []).1 =
      [.success "resume.txt" "id1",
       .failure "evil.zip" "Unsupported file type. Please upload pdf, docx, or txt."] := by
  have hc := (C9_batch_isolation exExtractOracle exFiles []).2.2.2
    (exBadFile, "id2") (by decide) (by decide)
  exact ⟨(C9_batch_isolation exExtractOracle exFiles []).1, ⟨by decide, by decide⟩,
    hc.1, hc.2, rfl⟩

end ResumeService
